import Mathlib

/-!
Shallow embedding of the rusty_chip8 CHIP-8 interpreter core.

Source files embedded: src/src/cpu.rs (the CPU struct with its fetch / execute /
push / pop operations) and the load operation used by src/src/main.rs.

Conventions of the embedding:
* Machine integers (u8, u16) are embedded as Nat.  Wherever the source wraps
  (wrapping_add, overflowing_add, u8 shifts) the embedding takes the result
  modulo 2^8 or 2^16 explicitly.  Arithmetic that cannot wrap in any reachable
  execution (e.g. the program counter, which stays far below 2^16 because fetch
  bound-checks it against 4096) is embedded as plain Nat arithmetic.
* Rust's fallible behaviour (panics from the explicit panic! calls, from array
  index bound checks, and from checked integer over/underflow) is embedded as
  Except Fault: every array access of the source carries its bound check here,
  and each panic site maps to a Fault constructor.
* Fixed-size arrays ([u8; 4096], [bool; 2048], ...) are embedded as total
  functions Nat → _ together with the explicit bound checks described above;
  the rand::random::<u8>() call in the C-family instruction is embedded as an
  oracle argument rng fed to execute.
-/

set_option maxHeartbeats 1600000

set_option maxRecDepth 8000

/-- Error outcomes of the interpreter: each corresponds to a panic site in
src/src/cpu.rs (unknown opcode at line 406, array index out of bounds from
Rust's bound checks, the explicit stack-overflow panic at line 431, integer
underflow of the stack pointer in pop / of the program counter in the key-wait
roll-back) or to the rejected-ROM failure of the load operation. -/
inductive Fault where
  | unknownOpcode
  | outOfBounds
  | stackOverflow
  | stackUnderflow
  | arithUnderflow
  | romTooLarge
deriving DecidableEq

/-- The machine state, translated field by field from `struct CPU` in
src/src/cpu.rs lines 34-46. -/
structure CPU where
  pc : Nat
  memory : Nat → Nat
  screen : Nat → Bool
  v_registers : Nat → Nat
  index_register : Nat
  stack : Nat → Nat
  stack_pointer : Nat
  keys : Nat → Bool
  delay_timer : Nat
  sound_timer : Nat

/-- Pointwise array write, the embedding of `a[i] = x` on the fixed arrays of
the CPU struct (the bound check of each write site is made explicit at that
site). -/
def upd {α : Type} (f : Nat → α) (i : Nat) (x : α) : Nat → α :=
  fun j => if j = i then x else f j

/-- First nibble: `(op & 0xF000) >> 12` (cpu.rs line 100). -/
def dOne (op : Nat) : Nat := (op &&& 0xF000) >>> 12

/-- Second nibble: `(op & 0x0F00) >> 8` (cpu.rs line 101). -/
def dTwo (op : Nat) : Nat := (op &&& 0x0F00) >>> 8

/-- Third nibble: `(op & 0x00F0) >> 4` (cpu.rs line 102). -/
def dThree (op : Nat) : Nat := (op &&& 0x00F0) >>> 4

/-- Fourth nibble: `op & 0x000F` (cpu.rs line 103). -/
def dFour (op : Nat) : Nat := op &&& 0x000F

/-- Immediate byte `op & 0x00FF`. -/
def nnOf (op : Nat) : Nat := op &&& 0x00FF

/-- Immediate 12-bit address `op & 0x0FFF`. -/
def nnnOf (op : Nat) : Nat := op &&& 0x0FFF

/-- `u8::overflowing_add`: wrapped 8-bit sum plus the overflow flag. -/
def overflowingAdd (a b : Nat) : Nat × Bool :=
  ((a + b) % 256, decide (256 ≤ a + b))

/-- `u8::overflowing_sub`: wrapped 8-bit difference plus the underflow flag. -/
def overflowingSub (a b : Nat) : Nat × Bool :=
  ((a + 256 - b) % 256, decide (a < b))

/-- `CPU::push` (cpu.rs lines 426-433).  The write `stack[sp] = val` carries
Rust's index bound check (the array has 16 slots), so a push with sp = 16
faults before the explicit `sp > 16` overflow panic, which is unreachable. -/
def push (s : CPU) (val : Nat) : Except Fault CPU :=
  if s.stack_pointer < 16 then
    let s' : CPU := { s with stack := upd s.stack s.stack_pointer val,
                             stack_pointer := s.stack_pointer + 1 }
    if s'.stack_pointer > 16 then .error .stackOverflow else .ok s'
  else .error .outOfBounds

/-- `CPU::pop` (cpu.rs lines 435-438).  `sp -= 1` on an empty stack is a u16
underflow panic, embedded as the stackUnderflow fault. -/
def pop (s : CPU) : Except Fault (Nat × CPU) :=
  if s.stack_pointer = 0 then .error .stackUnderflow
  else .ok (s.stack (s.stack_pointer - 1), { s with stack_pointer := s.stack_pointer - 1 })

/-- The key-scan loop of the Fx0A branch (cpu.rs lines 334-340): the first
index i < 16 with keys[i] set, if any. -/
def firstKey (keys : Nat → Bool) : Option Nat :=
  (List.range 16).find? fun i => keys i

/-- One XOR-blit of the draw loop body (cpu.rs lines 297-298): the accumulator
holds the screen and the pixels_flipped flag; the flag ORs in the pixel value
before the toggle. -/
def blitPixel (acc : (Nat → Bool) × Bool) (idx : Nat) : (Nat → Bool) × Bool :=
  (upd acc.1 idx (!(acc.1 idx)), acc.2 || acc.1 idx)

/-- Linear screen index of the draw instruction (cpu.rs lines 292-295):
`x = (draw_x + cx) % 64`, `y = (draw_y + cy) % 32`, `index = x + 64 * y`. -/
def spriteIndex (x0 y0 cx cy : Nat) : Nat :=
  ((x0 + cx) % 64) + 64 * ((y0 + cy) % 32)

/-- The inner column loop of the draw instruction (cpu.rs lines 290-300):
for cx in 0..8, if bit cx (most significant first) of the row byte is set,
XOR-toggle the target pixel and accumulate the collision flag. -/
def drawCols (rowPix x0 y0 cy : Nat) (acc : (Nat → Bool) × Bool) : (Nat → Bool) × Bool :=
  (List.range 8).foldl
    (fun a cx =>
      if rowPix &&& (128 >>> cx) ≠ 0 then blitPixel a (spriteIndex x0 y0 cx cy) else a)
    acc

/-- The outer row loop of the draw instruction (cpu.rs lines 286-301): each row
reads `memory[I + cy]`, whose index bound check is explicit here. -/
def drawRowsAux (mem : Nat → Nat) (i x0 y0 : Nat) :
    List Nat → (Nat → Bool) × Bool → Except Fault ((Nat → Bool) × Bool)
  | [], acc => .ok acc
  | cy :: rest, acc =>
    if i + cy < 4096 then
      drawRowsAux mem i x0 y0 rest (drawCols (mem (i + cy)) x0 y0 cy acc)
    else .error .outOfBounds

/-- The store loop of Fx55 (cpu.rs lines 393-395): `memory[I + i] = V[i]` for
i = 0..=x, each write carrying its bound check. -/
def storeRegsAux (v : Nat → Nat) (start : Nat) :
    List Nat → (Nat → Nat) → Except Fault (Nat → Nat)
  | [], mem => .ok mem
  | i :: rest, mem =>
    if start + i < 4096 then storeRegsAux v start rest (upd mem (start + i) (v i))
    else .error .outOfBounds

/-- The load loop of Fx65 (cpu.rs lines 402-404): `V[i] = memory[I + i]` for
i = 0..=x, each read carrying its bound check. -/
def loadRegsAux (mem : Nat → Nat) (start : Nat) :
    List Nat → (Nat → Nat) → Except Fault (Nat → Nat)
  | [], v => .ok v
  | i :: rest, v =>
    if start + i < 4096 then loadRegsAux mem start rest (upd v i (mem (start + i)))
    else .error .outOfBounds

/-- `CPU::fetch` (cpu.rs lines 92-97): reads memory[pc] as the high byte and
memory[pc+1] as the low byte, then executes `self.pc += 1` — the source really
advances the program counter by one, not two. -/
def fetch (s : CPU) : Except Fault (Nat × CPU) :=
  if s.pc < 4096 then
    if s.pc + 1 < 4096 then
      .ok ((s.memory s.pc <<< 8) ||| s.memory (s.pc + 1), { s with pc := s.pc + 1 })
    else .error .outOfBounds
  else .error .outOfBounds

/-- `CPU::execute` (cpu.rs lines 99-408).  The Rust `match` on the four nibbles
is an ordered first-match dispatch, embedded as the same chain of guards; the
final catch-all `panic!("unknown opcode")` is the unknownOpcode fault.  In the
Fx33 branch the source computes the BCD digits with f32 division, `%` and
`floor`; every intermediate value there is an integer below 256 that f32
represents exactly and whose correctly-rounded quotients floor to the integer
quotient, so the branch is embedded by the (extensionally equal) integer
div/mod values. -/
def execute (s : CPU) (op : Nat) (rng : Nat) : Except Fault CPU :=
  if dOne op = 0 ∧ dTwo op = 0 ∧ dThree op = 0 ∧ dFour op = 0 then
    .ok s
  else if dOne op = 0 ∧ dTwo op = 0 ∧ dThree op = 0xE ∧ dFour op = 0 then
    .ok { s with screen := fun _ => false }
  else if dOne op = 0 ∧ dTwo op = 0 ∧ dThree op = 0xE ∧ dFour op = 0xE then
    match pop s with
    | .error e => .error e
    | .ok ras => .ok { ras.2 with pc := ras.1 }
  else if dOne op = 1 then
    .ok { s with pc := nnnOf op }
  else if dOne op = 2 then
    match push s s.pc with
    | .error e => .error e
    | .ok s' => .ok { s' with pc := nnnOf op }
  else if dOne op = 3 then
    if s.v_registers (dTwo op) = nnOf op then .ok { s with pc := s.pc + 2 } else .ok s
  else if dOne op = 4 then
    if s.v_registers (dTwo op) ≠ nnOf op then .ok { s with pc := s.pc + 2 } else .ok s
  else if dOne op = 5 ∧ dFour op = 0 then
    if s.v_registers (dTwo op) = s.v_registers (dThree op) then .ok { s with pc := s.pc + 2 }
    else .ok s
  else if dOne op = 6 then
    .ok { s with v_registers := upd s.v_registers (dTwo op) (nnOf op) }
  else if dOne op = 7 then
    .ok { s with v_registers := upd s.v_registers (dTwo op) ((s.v_registers (dTwo op) + nnOf op) % 256) }
  else if dOne op = 8 ∧ dFour op = 0 then
    .ok { s with v_registers := upd s.v_registers (dTwo op) (s.v_registers (dThree op)) }
  else if dOne op = 8 ∧ dFour op = 1 then
    .ok { s with v_registers := upd s.v_registers (dTwo op) (s.v_registers (dTwo op) ||| s.v_registers (dThree op)) }
  else if dOne op = 8 ∧ dFour op = 2 then
    .ok { s with v_registers := upd s.v_registers (dTwo op) (s.v_registers (dTwo op) &&& s.v_registers (dThree op)) }
  else if dOne op = 8 ∧ dFour op = 3 then
    .ok { s with v_registers := upd s.v_registers (dTwo op) (s.v_registers (dTwo op) ^^^ s.v_registers (dThree op)) }
  else if dOne op = 8 ∧ dFour op = 4 then
    -- carry flag is written first, then the result (cpu.rs lines 203-207)
    let r := overflowingAdd (s.v_registers (dTwo op)) (s.v_registers (dThree op))
    .ok { s with v_registers := upd (upd s.v_registers 15 (if r.2 then 1 else 0)) (dTwo op) r.1 }
  else if dOne op = 8 ∧ dFour op = 5 then
    let r := overflowingSub (s.v_registers (dTwo op)) (s.v_registers (dThree op))
    .ok { s with v_registers := upd (upd s.v_registers 15 (if r.2 then 0 else 1)) (dTwo op) r.1 }
  else if dOne op = 8 ∧ dFour op = 6 then
    -- result is written first, then the flag (cpu.rs lines 224-227)
    .ok { s with v_registers := upd (upd s.v_registers (dTwo op) (s.v_registers (dTwo op) >>> 1)) 15 (s.v_registers (dTwo op) &&& 1) }
  else if dOne op = 8 ∧ dFour op = 7 then
    let r := overflowingSub (s.v_registers (dThree op)) (s.v_registers (dTwo op))
    .ok { s with v_registers := upd (upd s.v_registers 15 (if r.2 then 0 else 1)) (dTwo op) r.1 }
  else if dOne op = 8 ∧ dFour op = 0xE then
    .ok { s with v_registers := upd (upd s.v_registers (dTwo op) ((s.v_registers (dTwo op) <<< 1) % 256)) 15 (s.v_registers (dTwo op) >>> 7) }
  else if dOne op = 9 ∧ dFour op = 0 then
    if s.v_registers (dTwo op) ≠ s.v_registers (dThree op) then .ok { s with pc := s.pc + 2 }
    else .ok s
  else if dOne op = 0xA then
    .ok { s with index_register := nnnOf op }
  else if dOne op = 0xB then
    .ok { s with pc := s.v_registers 0 + nnnOf op }
  else if dOne op = 0xC then
    .ok { s with v_registers := upd s.v_registers (dTwo op) (rng &&& nnOf op) }
  else if dOne op = 0xD then
    match drawRowsAux s.memory s.index_register (s.v_registers (dTwo op))
        (s.v_registers (dThree op)) (List.range (dFour op)) (s.screen, false) with
    | .error e => .error e
    | .ok p => .ok { s with screen := p.1,
                            v_registers := upd s.v_registers 15 (if p.2 then 1 else 0) }
  else if dOne op = 0xE ∧ dThree op = 9 ∧ dFour op = 0xE then
    -- keys has 16 entries but is indexed by the full 8-bit Vx (cpu.rs line 308)
    if s.v_registers (dTwo op) < 16 then
      if s.keys (s.v_registers (dTwo op)) then .ok { s with pc := s.pc + 2 } else .ok s
    else .error .outOfBounds
  else if dOne op = 0xE ∧ dThree op = 0xA ∧ dFour op = 1 then
    if s.v_registers (dTwo op) < 16 then
      if s.keys (s.v_registers (dTwo op)) then .ok s else .ok { s with pc := s.pc + 2 }
    else .error .outOfBounds
  else if dOne op = 0xF ∧ dThree op = 0 ∧ dFour op = 7 then
    .ok { s with v_registers := upd s.v_registers (dTwo op) s.delay_timer }
  else if dOne op = 0xF ∧ dThree op = 0 ∧ dFour op = 0xA then
    match firstKey s.keys with
    | some i => .ok { s with v_registers := upd s.v_registers (dTwo op) i }
    | none =>
      -- `self.pc -= 2` (cpu.rs line 343); a u16 underflow of pc is a panic
      if 2 ≤ s.pc then .ok { s with pc := s.pc - 2 } else .error .arithUnderflow
  else if dOne op = 0xF ∧ dThree op = 1 ∧ dFour op = 5 then
    .ok { s with delay_timer := s.v_registers (dTwo op) }
  else if dOne op = 0xF ∧ dThree op = 1 ∧ dFour op = 8 then
    .ok { s with sound_timer := s.v_registers (dTwo op) }
  else if dOne op = 0xF ∧ dThree op = 1 ∧ dFour op = 0xE then
    .ok { s with index_register := (s.index_register + s.v_registers (dTwo op)) % 65536 }
  else if dOne op = 0xF ∧ dThree op = 2 ∧ dFour op = 9 then
    .ok { s with index_register := s.v_registers (dTwo op) * 5 }
  else if dOne op = 0xF ∧ dThree op = 3 ∧ dFour op = 3 then
    if s.index_register < 4096 then
      if s.index_register + 1 < 4096 then
        if s.index_register + 2 < 4096 then
          .ok { s with memory := upd (upd (upd s.memory s.index_register (s.v_registers (dTwo op) / 100)) (s.index_register + 1) (s.v_registers (dTwo op) % 100 / 10)) (s.index_register + 2) (s.v_registers (dTwo op) % 100 % 10) }
        else .error .outOfBounds
      else .error .outOfBounds
    else .error .outOfBounds
  else if dOne op = 0xF ∧ dThree op = 5 ∧ dFour op = 5 then
    match storeRegsAux s.v_registers s.index_register (List.range (dTwo op + 1)) s.memory with
    | .error e => .error e
    | .ok mem' => .ok { s with memory := mem' }
  else if dOne op = 0xF ∧ dThree op = 6 ∧ dFour op = 5 then
    match loadRegsAux s.memory s.index_register (List.range (dTwo op + 1)) s.v_registers with
    | .error e => .error e
    | .ok v' => .ok { s with v_registers := v' }
  else .error .unknownOpcode

/-- `CPU::tick` (cpu.rs lines 83-86): one fetch followed by one execute. -/
def tick (s : CPU) (rng : Nat) : Except Fault CPU :=
  match fetch s with
  | .error e => .error e
  | .ok opd => execute opd.2 opd.1 rng

/-- The dispatch domain of the decoder: a guard chain mirroring the match arms
of `CPU::execute` one for one, true exactly when some arm other than the
catch-all `panic!("unknown opcode")` matches the word. -/
def knownOp (op : Nat) : Bool :=
  if dOne op = 0 ∧ dTwo op = 0 ∧ dThree op = 0 ∧ dFour op = 0 then true
  else if dOne op = 0 ∧ dTwo op = 0 ∧ dThree op = 0xE ∧ dFour op = 0 then true
  else if dOne op = 0 ∧ dTwo op = 0 ∧ dThree op = 0xE ∧ dFour op = 0xE then true
  else if dOne op = 1 then true
  else if dOne op = 2 then true
  else if dOne op = 3 then true
  else if dOne op = 4 then true
  else if dOne op = 5 ∧ dFour op = 0 then true
  else if dOne op = 6 then true
  else if dOne op = 7 then true
  else if dOne op = 8 ∧ dFour op = 0 then true
  else if dOne op = 8 ∧ dFour op = 1 then true
  else if dOne op = 8 ∧ dFour op = 2 then true
  else if dOne op = 8 ∧ dFour op = 3 then true
  else if dOne op = 8 ∧ dFour op = 4 then true
  else if dOne op = 8 ∧ dFour op = 5 then true
  else if dOne op = 8 ∧ dFour op = 6 then true
  else if dOne op = 8 ∧ dFour op = 7 then true
  else if dOne op = 8 ∧ dFour op = 0xE then true
  else if dOne op = 9 ∧ dFour op = 0 then true
  else if dOne op = 0xA then true
  else if dOne op = 0xB then true
  else if dOne op = 0xC then true
  else if dOne op = 0xD then true
  else if dOne op = 0xE ∧ dThree op = 9 ∧ dFour op = 0xE then true
  else if dOne op = 0xE ∧ dThree op = 0xA ∧ dFour op = 1 then true
  else if dOne op = 0xF ∧ dThree op = 0 ∧ dFour op = 7 then true
  else if dOne op = 0xF ∧ dThree op = 0 ∧ dFour op = 0xA then true
  else if dOne op = 0xF ∧ dThree op = 1 ∧ dFour op = 5 then true
  else if dOne op = 0xF ∧ dThree op = 1 ∧ dFour op = 8 then true
  else if dOne op = 0xF ∧ dThree op = 1 ∧ dFour op = 0xE then true
  else if dOne op = 0xF ∧ dThree op = 2 ∧ dFour op = 9 then true
  else if dOne op = 0xF ∧ dThree op = 3 ∧ dFour op = 3 then true
  else if dOne op = 0xF ∧ dThree op = 5 ∧ dFour op = 5 then true
  else if dOne op = 0xF ∧ dThree op = 6 ∧ dFour op = 5 then true
  else false

/-- Modelled from the spec: `CPU::load` is called at src/src/main.rs line 41
but its definition is missing from src/src/cpu.rs (the only source file of the
core).  Spec section 6: the load operation accepts a byte sequence, writes it
verbatim into memory starting at 0x200, and fails if it would exceed available
memory (0x200 through 0xFFF), i.e. if the sequence is longer than
4096 - 0x200 = 3584 bytes. -/
def load (s : CPU) (data : List Nat) : Except Fault CPU :=
  if data.length ≤ 4096 - 0x200 then
    .ok { s with memory := fun a =>
      if 0x200 ≤ a ∧ a < 0x200 + data.length then data.getD (a - 0x200) 0 else s.memory a }
  else .error .romTooLarge

/-- Observation of the flag register VF of a step outcome. -/
def vfOf (r : Except Fault CPU) : Option Nat :=
  match r with
  | .ok s => some (s.v_registers 15)
  | .error _ => none

/-- Observation of register Vi of a step outcome. -/
def vAtOf (r : Except Fault CPU) (i : Nat) : Option Nat :=
  match r with
  | .ok s => some (s.v_registers i)
  | .error _ => none

/-- Observation of the program counter of a step outcome. -/
def pcOf (r : Except Fault CPU) : Option Nat :=
  match r with
  | .ok s => some s.pc
  | .error _ => none

/-- Observation of one memory cell of a step outcome. -/
def memAtOf (r : Except Fault CPU) (a : Nat) : Option Nat :=
  match r with
  | .ok s => some (s.memory a)
  | .error _ => none

/-- Observation of one framebuffer cell of a step outcome. -/
def screenAtOf (r : Except Fault CPU) (j : Nat) : Option Bool :=
  match r with
  | .ok s => some (s.screen j)
  | .error _ => none

/-- Observation of the instruction word returned by fetch. -/
def fetchOpOf (r : Except Fault (Nat × CPU)) : Option Nat :=
  match r with
  | .ok p => some p.1
  | .error _ => none

/-- Observation of the program counter after fetch. -/
def fetchPcOf (r : Except Fault (Nat × CPU)) : Option Nat :=
  match r with
  | .ok p => some p.2.pc
  | .error _ => none

/-- An all-zero machine state used to build the concrete test states below
(the repository's own unit tests likewise build states by direct field
assignment). -/
def blankCPU : CPU where
  pc := 0x200
  memory := fun _ => 0
  screen := fun _ => false
  v_registers := fun _ => 0
  index_register := 0
  stack := fun _ => 0
  stack_pointer := 0
  keys := fun _ => false
  delay_timer := 0
  sound_timer := 0

/-- State with the instruction 0x6000 (V0 := 0, neither a jump nor a skip)
loaded at the reset program counter 0x200. -/
def c1State : CPU :=
  { blankCPU with memory := fun a => if a = 0x200 then 0x60 else 0 }

/-- State with the wait-for-key instruction 0xF00A loaded at 0x200 and no key
pressed. -/
def c3State : CPU :=
  { blankCPU with memory := fun a => if a = 0x200 then 0xF0 else if a = 0x201 then 0x0A else 0 }

/-- Same instruction stream as c3State but with key 5 latched pressed. -/
def c3KeyState : CPU :=
  { c3State with keys := fun i => i = 5 }

/-- The BCD scenario state: V0 = 123, I = 69. -/
def c5State : CPU :=
  { blankCPU with v_registers := fun i => if i = 0 then 123 else 0, index_register := 69 }

/-- State for the 8F04 counterexample: VF = 1 and V0 = 1. -/
def c2State : CPU :=
  { blankCPU with v_registers := fun i => if i = 15 then 1 else if i = 0 then 1 else 0 }

/-- State used by the C2 witness: V0 = 255, V1 = 1 (the carry scenario). -/
def c2WState : CPU :=
  { blankCPU with v_registers := fun i => if i = 0 then 255 else if i = 1 then 1 else 0 }

/-- Single-pixel sprite at memory[0x200], I = 0x200, and the one targeted
framebuffer cell (index 0) already lit. -/
def c6LitState : CPU :=
  { blankCPU with memory := fun a => if a = 0x200 then 0x80 else 0,
                  index_register := 0x200,
                  screen := fun j => j = 0 }

/-- Single-pixel sprite at memory[0x200], I = 0x200, VF = 8 used as the
x-coordinate register, dark framebuffer. -/
def c6VfState : CPU :=
  { blankCPU with memory := fun a => if a = 0x200 then 0x80 else 0,
                  index_register := 0x200,
                  v_registers := fun i => if i = 15 then 8 else 0 }

/-- Single-pixel sprite at memory[0x200], I = 0x200, dark framebuffer. -/
def c6DarkState : CPU :=
  { blankCPU with memory := fun a => if a = 0x200 then 0x80 else 0,
                  index_register := 0x200 }

/-- State used by the C9 witness: V0 = 20 ≥ 16. -/
def c9State : CPU :=
  { blankCPU with v_registers := fun i => if i = 0 then 20 else 0 }

/-- Iterated CPU::push, as exercised by the stack LIFO scenario of the spec. -/
def pushList : CPU → List Nat → Except Fault CPU
  | s, [] => .ok s
  | s, a :: rest =>
    match push s a with
    | .error e => .error e
    | .ok s' => pushList s' rest

/-- Iterated CPU::pop, collecting the popped return addresses in order. -/
def popList : CPU → Nat → Except Fault (List Nat × CPU)
  | s, 0 => .ok ([], s)
  | s, n + 1 =>
    match pop s with
    | .error e => .error e
    | .ok p =>
      match popList p.2 n with
      | .error e => .error e
      | .ok q => .ok (p.1 :: q.1, q.2)

/-- The screen cells toggled by one sprite row, in loop order. -/
def rowTargets (rowPix x0 y0 cy : Nat) : List Nat :=
  ((List.range 8).filter fun cx => decide (rowPix &&& (128 >>> cx) ≠ 0)).map
    fun cx => spriteIndex x0 y0 cx cy

/-- All screen cells toggled by a draw, in loop order. -/
def drawTargets (mem : Nat → Nat) (i x0 y0 : Nat) (rows : List Nat) : List Nat :=
  rows.flatMap fun cy => rowTargets (mem (i + cy)) x0 y0 cy

/-- Peeling one guard off a false guard chain. -/
lemma ite_false_elim {c : Prop} [Decidable c] {b : Bool}
    (h : (if c then true else b) = false) : ¬ c ∧ b = false := by
  by_cases hc : c <;> simp [hc] at h ⊢ <;> exact h

/-- Claim C8: executing any 16-bit instruction word whose nibble pattern matches
no arm of the dispatch table of CPU::execute (knownOp mirrors those arms one for
one) is surfaced as the classifiable unknownOpcode fault — the step returns an
error and no machine state, so it is neither a silent no-op nor a state
corruption. -/
theorem c8_unknown_opcode (s : CPU) (op rng : Nat) (hop : op < 65536)
    (h : knownOp op = false) : execute s op rng = .error .unknownOpcode := by
  unfold knownOp at h
  obtain ⟨n1, h⟩ := ite_false_elim h
  obtain ⟨n2, h⟩ := ite_false_elim h
  obtain ⟨n3, h⟩ := ite_false_elim h
  obtain ⟨n4, h⟩ := ite_false_elim h
  obtain ⟨n5, h⟩ := ite_false_elim h
  obtain ⟨n6, h⟩ := ite_false_elim h
  obtain ⟨n7, h⟩ := ite_false_elim h
  obtain ⟨n8, h⟩ := ite_false_elim h
  obtain ⟨n9, h⟩ := ite_false_elim h
  obtain ⟨n10, h⟩ := ite_false_elim h
  obtain ⟨n11, h⟩ := ite_false_elim h
  obtain ⟨n12, h⟩ := ite_false_elim h
  obtain ⟨n13, h⟩ := ite_false_elim h
  obtain ⟨n14, h⟩ := ite_false_elim h
  obtain ⟨n15, h⟩ := ite_false_elim h
  obtain ⟨n16, h⟩ := ite_false_elim h
  obtain ⟨n17, h⟩ := ite_false_elim h
  obtain ⟨n18, h⟩ := ite_false_elim h
  obtain ⟨n19, h⟩ := ite_false_elim h
  obtain ⟨n20, h⟩ := ite_false_elim h
  obtain ⟨n21, h⟩ := ite_false_elim h
  obtain ⟨n22, h⟩ := ite_false_elim h
  obtain ⟨n23, h⟩ := ite_false_elim h
  obtain ⟨n24, h⟩ := ite_false_elim h
  obtain ⟨n25, h⟩ := ite_false_elim h
  obtain ⟨n26, h⟩ := ite_false_elim h
  obtain ⟨n27, h⟩ := ite_false_elim h
  obtain ⟨n28, h⟩ := ite_false_elim h
  obtain ⟨n29, h⟩ := ite_false_elim h
  obtain ⟨n30, h⟩ := ite_false_elim h
  obtain ⟨n31, h⟩ := ite_false_elim h
  obtain ⟨n32, h⟩ := ite_false_elim h
  obtain ⟨n33, h⟩ := ite_false_elim h
  obtain ⟨n34, h⟩ := ite_false_elim h
  obtain ⟨n35, h⟩ := ite_false_elim h
  unfold execute
  rw [if_neg n1, if_neg n2, if_neg n3, if_neg n4, if_neg n5, if_neg n6, if_neg n7, if_neg n8, if_neg n9, if_neg n10, if_neg n11, if_neg n12, if_neg n13, if_neg n14, if_neg n15, if_neg n16, if_neg n17, if_neg n18, if_neg n19, if_neg n20, if_neg n21, if_neg n22, if_neg n23, if_neg n24, if_neg n25, if_neg n26, if_neg n27, if_neg n28, if_neg n29, if_neg n30, if_neg n31, if_neg n32, if_neg n33, if_neg n34, if_neg n35]

/-- Claim C10: for every instruction word outside the C family (Cxnn, the only
instruction that consumes the random-byte oracle), execute does not depend on
the oracle: two executions from equal machine states with different random
draws produce equal outcomes (all state components included). -/
theorem c10_execute_deterministic (s : CPU) (op r1 r2 : Nat) (h : dOne op ≠ 0xC) :
    execute s op r1 = execute s op r2 := by
  unfold execute
  by_cases c1 : dOne op = 0 ∧ dTwo op = 0 ∧ dThree op = 0 ∧ dFour op = 0
  · rw [if_pos c1, if_pos c1]
  rw [if_neg c1, if_neg c1]
  by_cases c2 : dOne op = 0 ∧ dTwo op = 0 ∧ dThree op = 0xE ∧ dFour op = 0
  · rw [if_pos c2, if_pos c2]
  rw [if_neg c2, if_neg c2]
  by_cases c3 : dOne op = 0 ∧ dTwo op = 0 ∧ dThree op = 0xE ∧ dFour op = 0xE
  · rw [if_pos c3, if_pos c3]
  rw [if_neg c3, if_neg c3]
  by_cases c4 : dOne op = 1
  · rw [if_pos c4, if_pos c4]
  rw [if_neg c4, if_neg c4]
  by_cases c5 : dOne op = 2
  · rw [if_pos c5, if_pos c5]
  rw [if_neg c5, if_neg c5]
  by_cases c6 : dOne op = 3
  · rw [if_pos c6, if_pos c6]
  rw [if_neg c6, if_neg c6]
  by_cases c7 : dOne op = 4
  · rw [if_pos c7, if_pos c7]
  rw [if_neg c7, if_neg c7]
  by_cases c8 : dOne op = 5 ∧ dFour op = 0
  · rw [if_pos c8, if_pos c8]
  rw [if_neg c8, if_neg c8]
  by_cases c9 : dOne op = 6
  · rw [if_pos c9, if_pos c9]
  rw [if_neg c9, if_neg c9]
  by_cases c10 : dOne op = 7
  · rw [if_pos c10, if_pos c10]
  rw [if_neg c10, if_neg c10]
  by_cases c11 : dOne op = 8 ∧ dFour op = 0
  · rw [if_pos c11, if_pos c11]
  rw [if_neg c11, if_neg c11]
  by_cases c12 : dOne op = 8 ∧ dFour op = 1
  · rw [if_pos c12, if_pos c12]
  rw [if_neg c12, if_neg c12]
  by_cases c13 : dOne op = 8 ∧ dFour op = 2
  · rw [if_pos c13, if_pos c13]
  rw [if_neg c13, if_neg c13]
  by_cases c14 : dOne op = 8 ∧ dFour op = 3
  · rw [if_pos c14, if_pos c14]
  rw [if_neg c14, if_neg c14]
  by_cases c15 : dOne op = 8 ∧ dFour op = 4
  · rw [if_pos c15, if_pos c15]
  rw [if_neg c15, if_neg c15]
  by_cases c16 : dOne op = 8 ∧ dFour op = 5
  · rw [if_pos c16, if_pos c16]
  rw [if_neg c16, if_neg c16]
  by_cases c17 : dOne op = 8 ∧ dFour op = 6
  · rw [if_pos c17, if_pos c17]
  rw [if_neg c17, if_neg c17]
  by_cases c18 : dOne op = 8 ∧ dFour op = 7
  · rw [if_pos c18, if_pos c18]
  rw [if_neg c18, if_neg c18]
  by_cases c19 : dOne op = 8 ∧ dFour op = 0xE
  · rw [if_pos c19, if_pos c19]
  rw [if_neg c19, if_neg c19]
  by_cases c20 : dOne op = 9 ∧ dFour op = 0
  · rw [if_pos c20, if_pos c20]
  rw [if_neg c20, if_neg c20]
  by_cases c21 : dOne op = 0xA
  · rw [if_pos c21, if_pos c21]
  rw [if_neg c21, if_neg c21]
  by_cases c22 : dOne op = 0xB
  · rw [if_pos c22, if_pos c22]
  rw [if_neg c22, if_neg c22]
  rw [if_neg h, if_neg h]

/-- Claim C9: the key-skip instructions Ex9E and ExA1 index the 16-entry keypad
latch array with the full 8-bit value of Vx and no bound check, so whenever
Vx is at least 16 the step takes the out-of-bounds fatal fault instead of
performing a skip decision. -/
theorem c9_key_skip_fault (s : CPU) (op rng : Nat) (h1 : dOne op = 0xE)
    (hv : 16 ≤ s.v_registers (dTwo op)) :
    (dThree op = 9 → dFour op = 0xE → execute s op rng = .error .outOfBounds) ∧
    (dThree op = 0xA → dFour op = 1 → execute s op rng = .error .outOfBounds) := by
  constructor <;> intro h3 h4 <;> unfold execute <;>
    simp [h1, h3, h4, Nat.not_lt.mpr hv]

/-- Claim C2 (amended): for the arithmetic instructions 8xy4, 8xy5 and 8xy7 the
flag register VF equals exactly the carry / inverted-borrow rule value PROVIDED
x is not 0xF — the source writes VF before the arithmetic result, so for
x = 0xF the wrapped result overwrites the flag (see the counterexample).  For
the shifts 8x_6 and 8x_E the flag is written after the result, so VF equals the
pre-shift LSB respectively MSB of Vx for every x including 0xF.  In each
covered case the flag depends only on the operand registers' prior values. -/
theorem c2_vf_flag_amended (s : CPU) (op rng : Nat) (h1 : dOne op = 8)
    (hx : s.v_registers (dTwo op) < 256) (hy : s.v_registers (dThree op) < 256) :
    (dFour op = 4 → dTwo op ≠ 15 → vfOf (execute s op rng)
      = some (if 256 ≤ s.v_registers (dTwo op) + s.v_registers (dThree op) then 1 else 0)) ∧
    (dFour op = 5 → dTwo op ≠ 15 → vfOf (execute s op rng)
      = some (if s.v_registers (dTwo op) < s.v_registers (dThree op) then 0 else 1)) ∧
    (dFour op = 7 → dTwo op ≠ 15 → vfOf (execute s op rng)
      = some (if s.v_registers (dThree op) < s.v_registers (dTwo op) then 0 else 1)) ∧
    (dFour op = 6 → vfOf (execute s op rng) = some (s.v_registers (dTwo op) % 2)) ∧
    (dFour op = 0xE → vfOf (execute s op rng) = some (s.v_registers (dTwo op) / 128)) := by
  refine ⟨?_, ?_, ?_, ?_, ?_⟩
  · intro h4 h15
    have h15' : ¬ (15 = dTwo op) := fun hh => h15 hh.symm
    unfold execute
    simp [h1, h4, vfOf, upd, h15', overflowingAdd]
  · intro h4 h15
    have h15' : ¬ (15 = dTwo op) := fun hh => h15 hh.symm
    unfold execute
    simp [h1, h4, vfOf, upd, h15', overflowingSub]
  · intro h4 h15
    have h15' : ¬ (15 = dTwo op) := fun hh => h15 hh.symm
    unfold execute
    simp [h1, h4, vfOf, upd, h15', overflowingSub]
  · intro h4
    unfold execute
    simp [h1, h4, vfOf, upd, Nat.and_one_is_mod]
  · intro h4
    unfold execute
    simp [h1, h4, vfOf, upd, Nat.shiftRight_eq_div_pow]

/-- Claim C1 (code bug evidence): fetch does combine memory[PC] as high byte
with memory[PC+1] as low byte (first conjunct: the word fetched at 0x200 is
0x6000), but it advances PC by exactly ONE, not two — cpu.rs line 95 reads
`self.pc += 1` — so a step executing the non-jumping, non-skipping instruction
0x6000 leaves PC = 0x201 instead of the claimed 0x202. -/
theorem c1_fetch_advance_bug :
    fetchOpOf (fetch c1State) = some 0x6000 ∧
    fetchPcOf (fetch c1State) = some 0x201 ∧
    c1State.pc = 0x200 ∧
    pcOf (tick c1State 0) = some 0x201 := by decide

/-- Claim C3 (code bug evidence): a step of the wait-for-key instruction Fx0A
with no key pressed is NOT net-unchanged: fetch adds 1 (not 2) to PC and the
instruction subtracts 2, so PC moves from 0x200 to 0x1FF and the instruction
does not re-execute at the next step.  With key 5 pressed, the step does store
the lowest pressed index 5 into Vx, but "advancing normally" is again only
PC + 1 = 0x201, not past the 2-byte instruction. -/
theorem c3_key_wait_bug :
    c3State.pc = 0x200 ∧
    pcOf (tick c3State 0) = some 0x1FF ∧
    pcOf (tick c3KeyState 0) = some 0x201 ∧
    vAtOf (tick c3KeyState 0) 0 = some 5 := by decide

/-- Claim C5 (code bug evidence on the integer-arithmetic clause): the BCD
instruction Fx33 run on Vx = 123 with I = 69 stores the decimal digits 1, 2, 3
at memory[69..71], exactly as the spec scenario demands.  The source, however,
computes these digits with f32 division, `%` and floor (cpu.rs lines 376-382),
not with the integer-only arithmetic the claim requires; the embedding uses
the integer div/mod values because the f32 computation is exact on all u8
inputs. -/
theorem c5_bcd_scenario :
    c5State.v_registers 0 = 123 ∧ c5State.index_register = 69 ∧
    memAtOf (execute c5State 0xF033 0) 69 = some 1 ∧
    memAtOf (execute c5State 0xF033 0) 70 = some 2 ∧
    memAtOf (execute c5State 0xF033 0) 71 = some 3 := by decide

/-- Claim C2 counterexample: with VF = 1 and V0 = 1, executing 8F04
(x = 0xF, y = 0) leaves VF = 2 — the wrapped sum — whereas the carry rule of
the claim dictates VF = 0 (1 + 1 does not overflow 8 bits).  The claim is
therefore false at x = 0xF. -/
theorem c2_vf_flag_counterexample :
    vfOf (execute c2State 0x8F04 0) = some 2 ∧
    vfOf (execute c2State 0x8F04 0) ≠
      some (if 256 ≤ c2State.v_registers (dTwo 0x8F04) + c2State.v_registers (dThree 0x8F04)
            then 1 else 0) := by decide

/-- Claim C2 witness: the carry scenario V0 = 255, V1 = 1 under 8014 sets
VF = 1, obtained by instantiating the amended theorem at this concrete
state. -/
theorem c2_vf_flag_witness :
    vfOf (execute c2WState 0x8014 0) = some 1 := by
  have h := (c2_vf_flag_amended c2WState 0x8014 0 (by decide) (by decide) (by decide)).1
    (by decide) (by decide)
  rw [h]
  decide

/-- Claim C9 witness: with V0 = 20, both E09E and E0A1 fault, by instantiating
the theorem at this concrete state. -/
theorem c9_key_skip_fault_witness :
    execute c9State 0xE09E 0 = Except.error Fault.outOfBounds ∧
    execute c9State 0xE0A1 0 = Except.error Fault.outOfBounds := by
  constructor
  · exact (c9_key_skip_fault c9State 0xE09E 0 (by decide) (by decide)).1 (by decide) (by decide)
  · exact (c9_key_skip_fault c9State 0xE0A1 0 (by decide) (by decide)).2 (by decide) (by decide)

/-- Claim C10 witness: the clear-screen instruction executed with two different
random draws gives identical outcomes. -/
theorem c10_execute_deterministic_witness :
    execute blankCPU 0x00E0 3 = execute blankCPU 0x00E0 7 :=
  c10_execute_deterministic blankCPU 0x00E0 3 7 (by decide)

/-- Claim C8 witness: the word 0x0123 matches no dispatch arm and faults. -/
theorem c8_unknown_opcode_witness :
    execute blankCPU 0x0123 0 = Except.error Fault.unknownOpcode :=
  c8_unknown_opcode blankCPU 0x0123 0 (by decide) (by decide)

/-- Claim C7: the load operation accepts any byte sequence that fits in
0x200..0xFFF (at most 3584 bytes), writes it verbatim into memory starting at
0x200, leaves every address below 0x200 unchanged, and fails with the explicit
romTooLarge error whenever the sequence would exceed that range. -/
theorem c7_load_contract (s : CPU) (data : List Nat) :
    (data.length ≤ 3584 →
      ∃ s', load s data = .ok s' ∧
        (∀ i, i < data.length → s'.memory (0x200 + i) = data.getD i 0) ∧
        (∀ a, a < 0x200 → s'.memory a = s.memory a) ∧
        s'.pc = s.pc) ∧
    (3584 < data.length → load s data = .error .romTooLarge) := by
  constructor
  · intro hlen
    refine ⟨{ s with memory := fun a =>
        if 0x200 ≤ a ∧ a < 0x200 + data.length then data.getD (a - 0x200) 0
        else s.memory a }, ?_, ?_, ?_, rfl⟩
    · unfold load
      rw [if_pos (by omega)]
    · intro i hi
      show (if 0x200 ≤ 0x200 + i ∧ 0x200 + i < 0x200 + data.length
            then data.getD (0x200 + i - 0x200) 0 else s.memory (0x200 + i)) = data.getD i 0
      rw [if_pos ⟨by omega, by omega⟩]
      have hidx : 0x200 + i - 0x200 = i := by omega
      rw [hidx]
    · intro a ha
      show (if 0x200 ≤ a ∧ a < 0x200 + data.length
            then data.getD (a - 0x200) 0 else s.memory a) = s.memory a
      rw [if_neg (by omega)]
  · intro hlen
    unfold load
    rw [if_neg (by omega)]

/-- Claim C7 witness: loading the three-byte sequence [1, 2, 3] into the blank
machine succeeds with the stated memory layout, and loading 3585 zero bytes is
rejected, both by instantiating the contract theorem. -/
theorem c7_load_contract_witness :
    (([1, 2, 3] : List Nat).length ≤ 3584 ∧
      (∃ s', load blankCPU [1, 2, 3] = .ok s' ∧
        (∀ i, i < ([1, 2, 3] : List Nat).length → s'.memory (0x200 + i) = ([1, 2, 3] : List Nat).getD i 0) ∧
        (∀ a, a < 0x200 → s'.memory a = blankCPU.memory a) ∧
        s'.pc = blankCPU.pc)) ∧
    (3584 < (List.replicate 3585 (0 : Nat)).length ∧
      load blankCPU (List.replicate 3585 (0 : Nat)) = .error .romTooLarge) := by
  refine ⟨⟨by decide, (c7_load_contract blankCPU [1, 2, 3]).1 (by decide)⟩, ⟨?_, ?_⟩⟩
  · rw [List.length_replicate]
    omega
  · exact (c7_load_contract blankCPU (List.replicate 3585 0)).2
      (by rw [List.length_replicate]; omega)

/-- Claim C4: from an empty stack, pushing 16 (arbitrary, in particular
distinct) return addresses and then popping 16 times yields them in exact
reverse order; a 17th push fails with the fatal out-of-bounds fault raised by
the stack array's bound check (the dedicated overflow panic of cpu.rs line 431
sits behind it and is unreachable), and a pop on the empty stack fails with
the fatal underflow fault — both surfaced as errors carrying no corrupted
state. -/
theorem c4_stack_lifo (s : CPU)
    (a0 a1 a2 a3 a4 a5 a6 a7 a8 a9 a10 a11 a12 a13 a14 a15 : Nat)
    (h0 : s.stack_pointer = 0) :
    (Except.map (fun lc => lc.1)
      ((pushList s [a0, a1, a2, a3, a4, a5, a6, a7, a8, a9, a10, a11, a12, a13, a14, a15]).bind
        (fun s' => popList s' 16))
      = .ok [a15, a14, a13, a12, a11, a10, a9, a8, a7, a6, a5, a4, a3, a2, a1, a0]) ∧
    (∀ b, (pushList s [a0, a1, a2, a3, a4, a5, a6, a7, a8, a9, a10, a11, a12, a13, a14, a15]).bind
        (fun s' => push s' b) = .error .outOfBounds) ∧
    pop s = .error .stackUnderflow := by
  obtain ⟨pc, mem, scr, v, idx, stk, sp, keys, dt, st⟩ := s
  simp only at h0
  subst h0
  refine ⟨?_, fun b => ?_, ?_⟩
  · simp [pushList, push, pop, popList, upd, Except.bind, Except.map]
  · simp [pushList, push, pop, upd, Except.bind]
  · simp [pop]

/-- Claim C4 witness: the scenario instantiated with the addresses 1..16 on the
blank machine. -/
theorem c4_stack_lifo_witness :
    blankCPU.stack_pointer = 0 ∧
    ((Except.map (fun lc => lc.1)
      ((pushList blankCPU [1, 2, 3, 4, 5, 6, 7, 8, 9, 10, 11, 12, 13, 14, 15, 16]).bind
        (fun s' => popList s' 16))
      = .ok [16, 15, 14, 13, 12, 11, 10, 9, 8, 7, 6, 5, 4, 3, 2, 1]) ∧
    (∀ b, (pushList blankCPU [1, 2, 3, 4, 5, 6, 7, 8, 9, 10, 11, 12, 13, 14, 15, 16]).bind
        (fun s' => push s' b) = .error .outOfBounds) ∧
    pop blankCPU = .error .stackUnderflow) :=
  ⟨rfl, c4_stack_lifo blankCPU 1 2 3 4 5 6 7 8 9 10 11 12 13 14 15 16 rfl⟩

/-- A guarded fold over a list equals the plain blit fold over the filtered,
mapped target list. -/
lemma foldl_guard_eq (p : Nat → Prop) [DecidablePred p] (f : Nat → Nat) (l : List Nat)
    (acc : (Nat → Bool) × Bool) :
    l.foldl (fun a cx => if p cx then blitPixel a (f cx) else a) acc
      = ((l.filter fun cx => decide (p cx)).map f).foldl blitPixel acc := by
  induction l generalizing acc with
  | nil => rfl
  | cons hd tl ih =>
    by_cases hp : p hd <;> simp [hp, List.filter_cons, ih]

/-- The draw column loop is the blit fold over the row's target cells. -/
lemma drawCols_eq (rowPix x0 y0 cy : Nat) (acc : (Nat → Bool) × Bool) :
    drawCols rowPix x0 y0 cy acc = (rowTargets rowPix x0 y0 cy).foldl blitPixel acc := by
  unfold drawCols rowTargets
  exact foldl_guard_eq (fun cx => rowPix &&& (128 >>> cx) ≠ 0)
    (fun cx => spriteIndex x0 y0 cx cy) (List.range 8) acc

/-- A successful draw loop computes the blit fold over all target cells. -/
lemma drawRowsAux_ok (mem : Nat → Nat) (i x0 y0 : Nat) (rows : List Nat)
    (acc p : (Nat → Bool) × Bool)
    (h : drawRowsAux mem i x0 y0 rows acc = .ok p) :
    p = (drawTargets mem i x0 y0 rows).foldl blitPixel acc := by
  induction rows generalizing acc with
  | nil =>
    unfold drawRowsAux at h
    unfold drawTargets
    simp at h ⊢
    exact h.symm
  | cons cy rest ih =>
    unfold drawRowsAux at h
    by_cases hb : i + cy < 4096
    · rw [if_pos hb] at h
      rw [ih _ h]
      simp [drawTargets, List.flatMap_cons, List.foldl_append, drawCols_eq]
    · rw [if_neg hb] at h
      cases h

/-- Screen cell after a blit fold: the original value XOR the parity of the
number of times the cell is targeted. -/
lemma foldl_blit_fst (L : List Nat) (acc : (Nat → Bool) × Bool) (j : Nat) :
    (L.foldl blitPixel acc).1 j = Bool.xor (acc.1 j) (List.count j L).bodd := by
  induction L generalizing acc with
  | nil => simp
  | cons a L ih =>
    rw [List.foldl_cons, ih]
    by_cases hj : j = a
    · subst hj
      simp [blitPixel, upd, List.count_cons, Nat.bodd_succ, Bool.xor_not, Bool.not_xor]
    · simp [blitPixel, upd, hj, List.count_cons, Ne.symm hj]

/-- Updating a cell outside the scanned list does not change an any-scan. -/
lemma any_upd_of_not_mem {L : List Nat} {f : Nat → Bool} {a : Nat} {b : Bool}
    (ha : a ∉ L) : (L.any fun j => upd f a b j) = L.any fun j => f j := by
  induction L with
  | nil => rfl
  | cons x L ih =>
    have hxa : ¬ (x = a) := fun h => ha (h ▸ List.mem_cons_self x L)
    have ha' : a ∉ L := fun h => ha (List.mem_cons_of_mem _ h)
    rw [List.any_cons, List.any_cons]
    have hupd : upd f a b x = f x := by unfold upd; rw [if_neg hxa]
    rw [hupd, ih ha']

/-- Collision flag of a blit fold over pairwise distinct targets: some targeted
cell was lit in the starting screen. -/
lemma foldl_blit_snd (L : List Nat) (acc : (Nat → Bool) × Bool) (hnd : L.Nodup) :
    (L.foldl blitPixel acc).2 = (acc.2 || L.any fun j => acc.1 j) := by
  induction L generalizing acc with
  | nil => simp
  | cons a L ih =>
    have ha : a ∉ L := (List.nodup_cons.mp hnd).1
    rw [List.foldl_cons, ih _ (List.nodup_cons.mp hnd).2]
    simp [blitPixel, any_upd_of_not_mem ha, List.any_cons, Bool.or_assoc]

/-- Every target cell of a sprite row lies on that row's wrapped screen line. -/
lemma mem_rowTargets {j rowPix x0 y0 cy : Nat} (h : j ∈ rowTargets rowPix x0 y0 cy) :
    j / 64 = (y0 + cy) % 32 := by
  unfold rowTargets at h
  obtain ⟨cx, hmem, rfl⟩ := List.mem_map.mp h
  unfold spriteIndex
  have h1 : (x0 + cx) % 64 < 64 := Nat.mod_lt _ (by omega)
  omega

/-- Within one sprite row the eight candidate cells are pairwise distinct. -/
lemma rowTargets_nodup (rowPix x0 y0 cy : Nat) : (rowTargets rowPix x0 y0 cy).Nodup := by
  unfold rowTargets
  apply List.Nodup.map_on
  · intro cx1 h1 cx2 h2 heq
    have b1 : cx1 < 8 := List.mem_range.mp (List.mem_of_mem_filter h1)
    have b2 : cx2 < 8 := List.mem_range.mp (List.mem_of_mem_filter h2)
    unfold spriteIndex at heq
    have m1 : (x0 + cx1) % 64 < 64 := Nat.mod_lt _ (by omega)
    have m2 : (x0 + cx2) % 64 < 64 := Nat.mod_lt _ (by omega)
    omega
  · exact List.Nodup.filter _ (List.nodup_range 8)

/-- For sprite heights up to 32 all target cells of a draw are pairwise
distinct: rows land on distinct wrapped screen lines and columns on distinct
wrapped positions. -/
lemma drawTargets_nodup (mem : Nat → Nat) (i x0 y0 h : Nat) (hh : h ≤ 32) :
    (drawTargets mem i x0 y0 (List.range h)).Nodup := by
  unfold drawTargets
  rw [List.nodup_flatMap]
  constructor
  · intro cy _
    exact rowTargets_nodup _ _ _ _
  · refine List.Pairwise.imp_of_mem ?_ (List.pairwise_lt_range h)
    intro a b haem hbem hab
    intro k hk1 hk2
    have e1 := mem_rowTargets hk1
    have e2 := mem_rowTargets hk2
    have hb' : b < h := List.mem_range.mp hbem
    omega

/-- Inversion of a successful draw step: the resulting state is the fold of the
draw loop, VF holds the collision flag, and memory and the index register are
untouched. -/
lemma execute_draw_inv (s : CPU) (op rng : Nat) (hop : dOne op = 0xD) (s' : CPU)
    (h : execute s op rng = .ok s') :
    ∃ p, drawRowsAux s.memory s.index_register (s.v_registers (dTwo op))
        (s.v_registers (dThree op)) (List.range (dFour op)) (s.screen, false) = .ok p ∧
      s'.screen = p.1 ∧
      s'.v_registers = upd s.v_registers 15 (if p.2 then 1 else 0) ∧
      s'.memory = s.memory ∧ s'.index_register = s.index_register := by
  unfold execute at h
  simp [hop] at h
  rcases hdr : drawRowsAux s.memory s.index_register (s.v_registers (dTwo op))
      (s.v_registers (dThree op)) (List.range (dFour op)) (s.screen, false) with e | p
  · rw [hdr] at h
    simp at h
  · rw [hdr] at h
    simp at h
    exact ⟨p, rfl, by rw [← h], by rw [← h], by rw [← h], by rw [← h]⟩

/-- Bind on a successful step is application. -/
lemma except_bind_ok {α β : Type} (a : α) (f : α → Except Fault β) :
    (Except.ok a).bind f = f a := rfl

/-- Claim C6 (amended): provided neither coordinate register is VF itself
(the draw overwrites VF with the collision flag, so VF-based coordinates change
between the draws — see the counterexample), executing the same draw
instruction twice restores every framebuffer cell to its pre-draw value, and
the second draw reports a collision (VF = 1) if and only if some targeted cell
was unlit in the starting framebuffer (equivalently: the first draw lit some
cell).  The unconditional "second draw sets VF to 1" of the original claim is
false. -/
theorem c6_double_draw_amended (s : CPU) (op rng : Nat)
    (hop : dOne op = 0xD) (hx : dTwo op ≠ 15) (hy : dThree op ≠ 15) (j : Nat)
    (hok : ((execute s op rng).bind fun s1 => execute s1 op rng).isOk = true) :
    screenAtOf ((execute s op rng).bind fun s1 => execute s1 op rng) j = some (s.screen j) ∧
    (vfOf ((execute s op rng).bind fun s1 => execute s1 op rng) = some 1 ↔
      ∃ k ∈ drawTargets s.memory s.index_register (s.v_registers (dTwo op))
        (s.v_registers (dThree op)) (List.range (dFour op)), s.screen k = false) := by
  cases h1 : execute s op rng with
  | error e =>
    rw [h1] at hok
    simp [Except.bind, Except.isOk, Except.toBool] at hok
  | ok s1 =>
    cases h2 : execute s1 op rng with
    | error e =>
      rw [h1] at hok
      simp only [except_bind_ok] at hok
      rw [h2] at hok
      simp [Except.isOk, Except.toBool] at hok
    | ok s2 =>
      obtain ⟨p1, hdr1, hscr1, hv1, hmem1, hidx1⟩ := execute_draw_inv s op rng hop s1 h1
      obtain ⟨p2, hdr2, hscr2, hv2, hmem2, hidx2⟩ := execute_draw_inv s1 op rng hop s2 h2
      have hvx : s1.v_registers (dTwo op) = s.v_registers (dTwo op) := by
        rw [hv1]; unfold upd; rw [if_neg hx]
      have hvy : s1.v_registers (dThree op) = s.v_registers (dThree op) := by
        rw [hv1]; unfold upd; rw [if_neg hy]
      have hp1 := drawRowsAux_ok _ _ _ _ _ _ _ hdr1
      have hdr2' : drawRowsAux s.memory s.index_register (s.v_registers (dTwo op))
          (s.v_registers (dThree op)) (List.range (dFour op)) (s1.screen, false) = .ok p2 := by
        rw [← hmem1, ← hidx1, ← hvx, ← hvy]; exact hdr2
      have hp2 := drawRowsAux_ok _ _ _ _ _ _ _ hdr2'
      have hfour : dFour op ≤ 32 := le_trans Nat.and_le_right (by norm_num)
      have hnd : (drawTargets s.memory s.index_register (s.v_registers (dTwo op))
          (s.v_registers (dThree op)) (List.range (dFour op))).Nodup :=
        drawTargets_nodup _ _ _ _ _ hfour
      simp only [except_bind_ok]
      rw [h2]
      have e1 : ∀ k, s1.screen k = Bool.xor (s.screen k)
          (List.count k (drawTargets s.memory s.index_register (s.v_registers (dTwo op))
            (s.v_registers (dThree op)) (List.range (dFour op)))).bodd := by
        intro k
        rw [hscr1, hp1]
        exact foldl_blit_fst _ (s.screen, false) k
      constructor
      · show some (s2.screen j) = some (s.screen j)
        have e2 : s2.screen j = Bool.xor (s1.screen j)
            (List.count j (drawTargets s.memory s.index_register (s.v_registers (dTwo op))
              (s.v_registers (dThree op)) (List.range (dFour op)))).bodd := by
          rw [hscr2, hp2]
          exact foldl_blit_fst _ (s1.screen, false) j
        rw [e2, e1 j, Bool.xor_assoc]
        simp
      · show some (s2.v_registers 15) = some 1 ↔ _
        have hv15 : s2.v_registers 15 = (if p2.2 then 1 else 0) := by
          rw [hv2]; unfold upd; rw [if_pos rfl]
        have hfl : p2.2 = ((drawTargets s.memory s.index_register (s.v_registers (dTwo op))
            (s.v_registers (dThree op)) (List.range (dFour op))).any fun k => s1.screen k) := by
          rw [hp2, foldl_blit_snd _ (s1.screen, false) hnd]
          simp
        rw [hv15, hfl]
        by_cases han : ((drawTargets s.memory s.index_register (s.v_registers (dTwo op))
            (s.v_registers (dThree op)) (List.range (dFour op))).any fun k => s1.screen k) = true
        · rw [if_pos han]
          constructor
          · intro _
            obtain ⟨k, hkL, hks⟩ := List.any_eq_true.mp han
            refine ⟨k, hkL, ?_⟩
            have hcnt := List.count_eq_one_of_mem hnd hkL
            rw [e1 k, hcnt] at hks
            cases hsk : s.screen k
            · rfl
            · rw [hsk] at hks
              simp at hks
          · intro _
            rfl
        · rw [if_neg han]
          constructor
          · intro h01
            simp at h01
          · rintro ⟨k, hkL, hks⟩
            exfalso
            apply han
            refine List.any_eq_true.mpr ⟨k, hkL, ?_⟩
            have hcnt := List.count_eq_one_of_mem hnd hkL
            rw [e1 k, hcnt, hks]
            rfl

/-- Claim C6 counterexample: (a) a one-pixel sprite drawn twice on a cell that
starts lit gives VF = 0 on the second draw, not 1; (b) with x-register 0xF
(VF = 8 as x-coordinate) the double draw does not restore the framebuffer:
cell 8 starts unlit and ends lit, because the first draw rewrites VF and the
second draw lands at x = 0. -/
theorem c6_double_draw_counterexample :
    (c6LitState.screen 0 = true ∧
      vfOf ((execute c6LitState 0xD011 0).bind fun s1 => execute s1 0xD011 0) = some 0) ∧
    (c6VfState.screen 8 = false ∧ dTwo 0xDF01 = 15 ∧
      screenAtOf ((execute c6VfState 0xDF01 0).bind fun s1 => execute s1 0xDF01 0) 8
        = some true) := by
  decide

/-- Claim C6 witness: a one-pixel sprite drawn twice on the dark screen with
ordinary coordinate registers, instantiating the amended theorem at cell 0. -/
theorem c6_double_draw_witness :
    (((execute c6DarkState 0xD011 0).bind fun s1 => execute s1 0xD011 0).isOk = true) ∧
    (screenAtOf ((execute c6DarkState 0xD011 0).bind fun s1 => execute s1 0xD011 0) 0
        = some (c6DarkState.screen 0) ∧
      (vfOf ((execute c6DarkState 0xD011 0).bind fun s1 => execute s1 0xD011 0) = some 1 ↔
        ∃ k ∈ drawTargets c6DarkState.memory c6DarkState.index_register
          (c6DarkState.v_registers (dTwo 0xD011)) (c6DarkState.v_registers (dThree 0xD011))
          (List.range (dFour 0xD011)), c6DarkState.screen k = false)) :=
  ⟨by decide, c6_double_draw_amended c6DarkState 0xD011 0 (by decide) (by decide) (by decide) 0
    (by decide)⟩
